import Mathlib

/-!
Verification development for the Alert Generation and Scoring Engine of the
in-force annuity review platform, together with the Angular UI helpers that
ship in the repository.

The overnight batch engine itself (Python, `API/batch_alert_generator.py` and
`API/app/services/acquisition_alerts.py`) is not part of the source tree that
was given; only its functional documentation and the Angular front end are.
Definitions marked `Modelled from the spec:` reconstruct those missing engine
functions faithfully from the specification text (sections 4.1 to 4.6) and the
algorithm documentation. Definitions for the TypeScript UI components
(`acquisition-alerts-list.component.ts`, `missing-info-module.component.ts`)
are translated directly from that TypeScript source.

All monetary amounts, rates and scores are rationals; the engine works on
decimal constants and the spec states exact tolerance bounds, so ℚ is the
faithful numeric carrier.
-/

/-! ## Scoring primitives (spec section 4.1) -/

/-- Severity tier of an alert: LOW, MEDIUM or HIGH. -/
inductive Severity
  | LOW
  | MEDIUM
  | HIGH
deriving DecidableEq

/-- Numeric rank of a severity tier, used for monotonicity statements and for
the output ordering (LOW = 0 < MEDIUM = 1 < HIGH = 2). -/
def sevRank : Severity → Nat
  | .LOW => 0
  | .MEDIUM => 1
  | .HIGH => 2

/-- Modelled from the spec: the shared severity mapping of the Scoring
Primitives component (missing engine code). Score at least 75 maps to HIGH,
at least 60 to MEDIUM, anything below to LOW. -/
def scoreToSeverity (s : ℚ) : Severity :=
  if 75 ≤ s then .HIGH else if 60 ≤ s then .MEDIUM else .LOW

/-- Modelled from the spec: the shared confidence mapping of the Scoring
Primitives component (missing engine code). Piecewise linear in the score,
clamped to at most 0.95 on the top branch, flat 0.65 below a score of 60. -/
def confidenceFromScore (s : ℚ) : ℚ :=
  if 75 ≤ s then min 0.95 (0.85 + (s - 75) * 0.01)
  else if 60 ≤ s then 0.75 + (s - 60) * 0.01
  else 0.65

/-- Modelled from the spec: the acquisition detector family uses its own
confidence rule, a 0.70 to 0.95 band that grows with the score (missing
engine code; the spec fixes only the band and the monotone growth). -/
def acqConfidence (s : ℚ) : ℚ :=
  max 0.70 (min 0.95 (0.70 + s * 0.0025))

/-- Alert record: the sole entity the engine creates (spec section 3). -/
structure Alert where
  alertId : String
  alertType : String
  severity : Severity
  score : ℚ
  confidence : ℚ
  breakdown : List (String × ℚ)
  reasons : List String
  dataPointsAnalyzed : Nat
  algorithmVersion : String
  profileRequired : Bool
  criticalMismatches : List String
deriving DecidableEq

/-- Sum of the component contributions listed in the score breakdown of an
alert. -/
def breakdownSum (a : Alert) : ℚ :=
  (a.breakdown.map Prod.snd).sum

/-- Holds when an optional detector result, if present, reports a total score
equal to the sum of its breakdown components within the 0.01 tolerance the
spec demands. -/
def breakdownConsistent (od : Option Alert) : Prop :=
  match od with
  | none => True
  | some a => |a.score - breakdownSum a| ≤ 1 / 100

/-- Holds when an optional detector result is present and its severity is at
least the given tier. -/
def sevAtLeast (m : Severity) (od : Option Alert) : Prop :=
  match od with
  | none => False
  | some a => sevRank m ≤ sevRank a.severity

/-- Holds when an optional detector result, if present, derives its severity
from its score through the shared severity mapping. -/
def sevFromSharedMapping (od : Option Alert) : Prop :=
  match od with
  | none => True
  | some a => a.severity = scoreToSeverity a.score

/-- Holds when an optional detector result, if present, derives its
confidence from its score through the shared confidence mapping. -/
def confFromSharedMapping (od : Option Alert) : Prop :=
  match od with
  | none => True
  | some a => a.confidence = confidenceFromScore a.score

/-- Holds when an optional detector result, if present, reports a confidence
inside the closed band given by the two bounds. -/
def confInBand (lo hi : ℚ) (od : Option Alert) : Prop :=
  match od with
  | none => True
  | some a => lo ≤ a.confidence ∧ a.confidence ≤ hi

/-- Configuration surface of the engine (spec section 6): tunable named
constants versioned with the algorithm version. -/
structure EngineConfig where
  benchmarkCap : ℚ
  cashPctThreshold : ℚ
  cashDollarThreshold : ℚ
  refAnnuityRate : ℚ
  bestMYGARate : ℚ
  algorithmVersion : String
deriving DecidableEq

/-- Default deployment configuration: 5.5 market benchmark cap, 10 percent
cash threshold, 50,000 dollar cash threshold, documented reference rates. -/
def defaultConfig : EngineConfig :=
  { benchmarkCap := 5.5
    cashPctThreshold := 0.10
    cashDollarThreshold := 50000
    refAnnuityRate := 0.055
    bestMYGARate := 5.5
    algorithmVersion := "1.0.0" }

/-! ## Replacement Opportunity Detector (spec section 4.2) -/

/-- Policy record fields the engine consults (spec section 3). -/
structure PolicyRecord where
  policyId : String
  currentCapRate : ℚ
  daysToSurrenderEnd : Int
  surrenderChargePct : ℚ
  currentFeePct : ℚ
  accountValue : ℚ
  hasIncomeRider : Bool
deriving DecidableEq

/-- Alignment level of one suitability dimension against the candidate
replacement product: full alignment, a half match, or a mismatch. -/
inductive MatchLevel
  | full
  | halfMatch
  | mismatch
deriving DecidableEq

/-- Client suitability profile as the replacement detector consumes it:
per-dimension alignment levels (risk tolerance, primary objective, time
horizon) against the candidate product. -/
structure ReplacementProfile where
  riskMatch : MatchLevel
  objectiveMatch : MatchLevel
  horizonMatch : MatchLevel
deriving DecidableEq

/-- Product catalog reference data for the entity under evaluation. -/
structure CatalogRef where
  bestCap : ℚ
  bestFeePct : ℚ
  incomeRiderAvailable : Bool
  betterDeathBenefit : Bool
  betterLiquidity : Bool
deriving DecidableEq

/-- Modelled from the spec: risk tolerance alignment sub-score, 0 to 10. -/
def riskMatchScore : MatchLevel → ℚ
  | .full => 10
  | .halfMatch => 5
  | .mismatch => 0

/-- Modelled from the spec: objective alignment sub-score, 0 to 8. -/
def objectiveMatchScore : MatchLevel → ℚ
  | .full => 8
  | .halfMatch => 5
  | .mismatch => 0

/-- Modelled from the spec: time horizon alignment sub-score, 0 to 6.5. -/
def horizonMatchScore : MatchLevel → ℚ
  | .full => 6.5
  | .halfMatch => 3
  | .mismatch => 0

/-- Modelled from the spec: Suitability Match category (weight 0.30), the sum
of the three alignment sub-scores, 24.5 effective maximum. -/
def suitabilityMatchScore (pr : ReplacementProfile) : ℚ :=
  riskMatchScore pr.riskMatch + objectiveMatchScore pr.objectiveMatch +
    horizonMatchScore pr.horizonMatch

/-- Modelled from the spec: Performance Gap category (weight 0.40), the
percentage improvement of the best catalog cap over the current cap rate,
scaled to at most 40 points. -/
def performanceGapScore (p : PolicyRecord) (cat : CatalogRef) : ℚ :=
  min 40 ((cat.bestCap - p.currentCapRate) / p.currentCapRate * 40)

/-- Modelled from the spec: Cost Savings category (weight 0.20): 16.8 points
when the surrender schedule ends within a year, 10.0 otherwise, plus a 3.2
bonus when the fee differential versus the best catalog alternative exceeds
0.3 percentage points. -/
def costSavingsScore (p : PolicyRecord) (cat : CatalogRef) : ℚ :=
  (if p.daysToSurrenderEnd < 365 then 16.8 else 10) +
    (if 0.3 < p.currentFeePct - cat.bestFeePct then 3.2 else 0)

/-- Modelled from the spec: Feature Upgrade category (weight 0.10): 5.5 when
an income rider is newly available, 3.0 when an existing rider would be
upgraded, 1.5 otherwise, plus death benefit and liquidity bonuses, the whole
category hard-capped at 10. -/
def featureUpgradeScore (p : PolicyRecord) (cat : CatalogRef) : ℚ :=
  min 10
    ((if cat.incomeRiderAvailable && !p.hasIncomeRider then 5.5
      else if cat.incomeRiderAvailable && p.hasIncomeRider then 3
      else 1.5) +
     (if cat.betterDeathBenefit then 2 else 0) +
     (if cat.betterLiquidity then 1.5 else 0))

/-- Modelled from the spec: the policy-data-only replacement prefilter. With
gap defined as the market benchmark cap minus the current cap rate, a
candidate fires when the gap exceeds 2.0, or when the surrender schedule ends
within 365 days and the gap exceeds 1.0. -/
def replacementTrigger (cfg : EngineConfig) (p : PolicyRecord) : Bool :=
  let gap := cfg.benchmarkCap - p.currentCapRate
  if 2 < gap then true
  else if p.daysToSurrenderEnd < 365 ∧ 1 < gap then true
  else false

/-- Modelled from the spec: expected financial gain from replacing, the cap
improvement applied to the account value. -/
def replacementExpectedGain (p : PolicyRecord) (cat : CatalogRef) : ℚ :=
  p.accountValue * (cat.bestCap - p.currentCapRate) / 100

/-- Modelled from the spec: the surrender penalty in dollars. -/
def replacementSurrenderPenalty (p : PolicyRecord) : ℚ :=
  p.accountValue * p.surrenderChargePct / 100

/-- Modelled from the spec: replacement severity uses the shared breakpoints,
but HIGH additionally requires the surrender penalty to be below the expected
gain; a HIGH score failing that check is reported as MEDIUM. -/
def replacementSeverity (p : PolicyRecord) (cat : CatalogRef) (total : ℚ) : Severity :=
  let base := scoreToSeverity total
  if base = .HIGH ∧ ¬replacementSurrenderPenalty p < replacementExpectedGain p cat then
    .MEDIUM
  else base

/-- Modelled from the spec: the Replacement Opportunity Detector. When the
policy-data prefilter fires and a suitability profile is available, the four
weighted categories combine over a 95-point scale. Without a profile the
alert is still emitted, the achievable score is capped at 52 of 95, the
profile-required flag is attached, the degraded path is visible in the reason
list, and the spec leaves the degraded breakdown unspecified, so it is
reported as one aggregate policy-data component. -/
def replacementDetect (cfg : EngineConfig) (p : PolicyRecord)
    (profOpt : Option ReplacementProfile) (cat : CatalogRef) : Option Alert :=
  if replacementTrigger cfg p then
    match profOpt with
    | some pr =>
      let perf := performanceGapScore p cat
      let suit := suitabilityMatchScore pr
      let cost := costSavingsScore p cat
      let feat := featureUpgradeScore p cat
      let total := perf + suit + cost + feat
      some
        { alertId := "REPLACEMENT-" ++ p.policyId
          alertType := "REPLACEMENT"
          severity := replacementSeverity p cat total
          score := total
          confidence := confidenceFromScore total
          breakdown :=
            [("performance_gap", perf), ("suitability_improvement", suit),
             ("cost_savings", cost), ("feature_upgrade", feat)]
          reasons :=
            ["Cap rate gap versus market alternatives",
             "Four-category weighted replacement scoring"]
          dataPointsAnalyzed := 31
          algorithmVersion := cfg.algorithmVersion
          profileRequired := false
          criticalMismatches := [] }
    | none =>
      let raw := performanceGapScore p cat + costSavingsScore p cat +
        featureUpgradeScore p cat
      let total := min 52 raw
      some
        { alertId := "REPLACEMENT-" ++ p.policyId
          alertType := "REPLACEMENT"
          severity := scoreToSeverity total
          score := total
          confidence := confidenceFromScore total
          breakdown := [("policy_data_score", total)]
          reasons :=
            ["Cap rate gap versus market alternatives",
             "Client profile required for full scoring"]
          dataPointsAnalyzed := 14
          algorithmVersion := cfg.algorithmVersion
          profileRequired := true
          criticalMismatches := [] }
  else none

/-! ## Income Activation Timing Detector (spec section 4.3) -/

/-- Inputs of the income activation timing detector: rider state, ages, the
distance to the computed optimal activation window, and the delay-cost
ingredients. -/
structure IncomeActivationInput where
  hasIncomeRider : Bool
  incomeActivated : Bool
  age : Nat
  eligibilityAge : Nat
  daysToOptimalWindow : Int
  rollupGain : ℚ
  deferralBonus : ℚ
  payoutValue : ℚ
  delayYears : ℚ
  needWithinDeferralWindow : Bool
deriving DecidableEq

/-- Modelled from the spec: the urgency score as a function of the distance
to the optimal activation window, which the engine derives from current age,
stated income-need date and eligibility date. The spec fixes only the
arguments of this function, so it is modelled as a clamped linear ramp into
the 0 to 10 range that is high near the window. -/
def incomeUrgencyScore (inp : IncomeActivationInput) : ℚ :=
  max 0 (min 10 ((400 - |(inp.daysToOptimalWindow : ℚ)|) / 40))

/-- Modelled from the spec: delay cost, rollup gain plus any deferral bonus
minus the income payments given up while delaying. -/
def incomeDelayCost (inp : IncomeActivationInput) : ℚ :=
  inp.rollupGain + inp.deferralBonus - inp.payoutValue * inp.delayYears

/-- Modelled from the spec: complexity factor, 1.2 when the scenario needs
explanatory context, 1.0 otherwise. -/
def incomeComplexityFactor (inp : IncomeActivationInput) : ℚ :=
  if inp.needWithinDeferralWindow then 1.2 else 1

/-- Modelled from the spec: income activation score, the product of urgency,
delay cost and complexity factor. -/
def incomeActivationScore (inp : IncomeActivationInput) : ℚ :=
  incomeUrgencyScore inp * incomeDelayCost inp * incomeComplexityFactor inp

/-- Modelled from the spec: income activation severity: HIGH within 30 days
of the optimal window or at high urgency, MEDIUM within 90 days or above
score 60, LOW otherwise. -/
def incomeActivationSeverity (inp : IncomeActivationInput) (s : ℚ) : Severity :=
  if inp.daysToOptimalWindow ≤ 30 ∨ 8 ≤ incomeUrgencyScore inp then .HIGH
  else if inp.daysToOptimalWindow ≤ 90 ∨ 60 < s then .MEDIUM
  else .LOW

/-- Modelled from the spec: the Income Activation Timing Detector. Applies
only when an income rider exists, is unactivated, and the client has reached
or is near rider eligibility age. The score is a product, not a weighted sum,
so the breakdown carries the single timing component; the two comparative
scenarios surface in the reason list. -/
def incomeActivationDetect (cfg : EngineConfig) (pid : String)
    (inpOpt : Option IncomeActivationInput) : Option Alert :=
  match inpOpt with
  | none => none
  | some inp =>
    if inp.hasIncomeRider && !inp.incomeActivated &&
        decide (inp.eligibilityAge ≤ inp.age + 1) then
      let s := incomeActivationScore inp
      some
        { alertId := "INCOME_ACTIVATION-" ++ pid
          alertType := "INCOME_ACTIVATION"
          severity := incomeActivationSeverity inp s
          score := s
          confidence := confidenceFromScore s
          breakdown := [("timing_score", s)]
          reasons :=
            ["Scenario: activate now",
             "Scenario: delay activation for the deferral bonus"]
          dataPointsAnalyzed := 12
          algorithmVersion := cfg.algorithmVersion
          profileRequired := false
          criticalMismatches := [] }
    else none

/-! ## Suitability Drift Detector (spec section 4.4) -/

/-- Primary investment objective of a suitability profile. -/
inductive Objective
  | growth
  | income
  | protection
  | legacy
deriving DecidableEq

/-- One suitability snapshot, either the original issue-time capture or the
current profile (spec section 3). Risk tolerance is an ordinal level index. -/
structure SuitSnapshot where
  riskLevel : Nat
  objective : Objective
  netWorth : ℚ
  annualIncome : ℚ
  horizonYears : ℚ
deriving DecidableEq

/-- Number of risk tolerance levels shifted between two snapshots. -/
def riskLevelsShifted (o c : SuitSnapshot) : Nat :=
  ((c.riskLevel : Int) - (o.riskLevel : Int)).natAbs

/-- Modelled from the spec: raw risk tolerance change category on a 0 to 100
scale, proportional to the number of levels shifted; one level lands at the
moderate midpoint, two or more saturate. -/
def riskDriftRaw (o c : SuitSnapshot) : ℚ :=
  min 100 ((riskLevelsShifted o c : ℚ) * 50)

/-- Modelled from the spec: magnitude of a relative change normalised against
a documented threshold (0.30 for net worth, 0.25 for income), with the
threshold itself landing at the moderate midpoint 50 and saturation at 100. -/
def relChangeNorm (orig cur threshold : ℚ) : ℚ :=
  if orig = 0 then 0 else min 100 (|cur - orig| / |orig| / threshold * 50)

/-- Modelled from the spec: raw financial situation change category, the
average of the normalised net worth and income change magnitudes. -/
def financialDriftRaw (o c : SuitSnapshot) : ℚ :=
  (relChangeNorm o.netWorth c.netWorth 0.30 +
    relChangeNorm o.annualIncome c.annualIncome 0.25) / 2

/-- Modelled from the spec: raw primary objective shift category: 0 without a
shift, saturated at 100 when the new objective is income-oriented but the
policy carries no income rider (the critical mismatch), 60 otherwise. -/
def objectiveDriftRaw (hasRider : Bool) (o c : SuitSnapshot) : ℚ :=
  if o.objective = c.objective then 0
  else if c.objective = .income ∧ hasRider = false then 100
  else 60

/-- Modelled from the spec: raw time horizon change category, proportional to
the shortening of the stated horizon. -/
def horizonDriftRaw (o c : SuitSnapshot) : ℚ :=
  if o.horizonYears = 0 then 0
  else min 100 (max 0 (o.horizonYears - c.horizonYears) / o.horizonYears * 100)

/-- Modelled from the spec: the critical mismatch list: flagged immediately
when the objective shifted and the new objective is income-oriented but the
policy carries no income rider. -/
def driftCriticalMismatches (hasRider : Bool) (o c : SuitSnapshot) : List String :=
  if o.objective ≠ c.objective ∧ c.objective = .income ∧ hasRider = false then
    ["Objective shifted to Income but policy has no income rider"]
  else []

/-- Number of drift categories at or above the moderate midpoint of their raw
scale; two or more co-occurring moderate changes force at least MEDIUM. -/
def driftModerateCount (hasRider : Bool) (o c : SuitSnapshot) : Nat :=
  ([riskDriftRaw o c, objectiveDriftRaw hasRider o c, financialDriftRaw o c,
    horizonDriftRaw o c].filter (fun r => 50 ≤ r)).length

/-- Modelled from the spec: drift severity: HIGH above total score 75 or on
any critical mismatch regardless of score; MEDIUM above 50 or when two or
more moderate changes co-occur; LOW otherwise. -/
def driftSeverity (total : ℚ) (crit : List String) (moderates : Nat) : Severity :=
  if 75 < total ∨ crit ≠ [] then .HIGH
  else if 50 < total ∨ 2 ≤ moderates then .MEDIUM
  else .LOW

/-- Modelled from the spec: the Suitability Drift Detector. Requires both the
original and the current snapshot; combines the four weighted categories
(0.35, 0.30, 0.20, 0.15) over 100 points; emits an alert above the LOW
breakpoint of 30 or whenever a critical mismatch fires. -/
def driftDetect (cfg : EngineConfig) (p : PolicyRecord)
    (origOpt currOpt : Option SuitSnapshot) : Option Alert :=
  match origOpt, currOpt with
  | some o, some c =>
    let rD := riskDriftRaw o c * 0.35
    let oD := objectiveDriftRaw p.hasIncomeRider o c * 0.30
    let fD := financialDriftRaw o c * 0.20
    let hD := horizonDriftRaw o c * 0.15
    let total := rD + oD + fD + hD
    let crit := driftCriticalMismatches p.hasIncomeRider o c
    if 30 < total ∨ crit ≠ [] then
      some
        { alertId := "SUITABILITY_DRIFT-" ++ p.policyId
          alertType := "SUITABILITY_DRIFT"
          severity := driftSeverity total crit (driftModerateCount p.hasIncomeRider o c)
          score := total
          confidence := confidenceFromScore total
          breakdown :=
            [("risk_tolerance_change", rD), ("primary_objective_shift", oD),
             ("financial_situation_change", fD), ("time_horizon_change", hD)]
          reasons :=
            ["Client profile has materially changed since policy issue",
             "Suitability verification recommended per compliance"]
          dataPointsAnalyzed := 16
          algorithmVersion := cfg.algorithmVersion
          profileRequired := false
          criticalMismatches := crit }
    else none
  | _, _ => none

/-! ## Missing/Incomplete Data Detector (spec section 4.5) -/

/-- Completeness status of one required non-financial field: complete, half
complete, or missing entirely. -/
inductive FieldStatus
  | complete
  | halfComplete
  | missing
deriving DecidableEq

/-- Inputs of the missing-information detector: the status of the three
required field groups, the age of the last non-financial update, and the
counts behind the update-eligibility ratio. -/
structure MissingInfoInput where
  policyId : String
  beneficiary : FieldStatus
  taxWithholding : FieldStatus
  contactInfo : FieldStatus
  yearsSinceUpdate : ℚ
  updatableFields : Nat
  requiredFields : Nat
deriving DecidableEq

/-- Modelled from the spec: incompleteness percentage of one field: empty is
100 percent incomplete, a half-complete field 50 percent, complete 0. -/
def incompletePct : FieldStatus → ℚ
  | .missing => 100
  | .halfComplete => 50
  | .complete => 0

/-- Modelled from the spec: Data Completeness category (weight 0.40), each
required field contributing proportionally to its missing status. -/
def completenessContribution (m : MissingInfoInput) : ℚ :=
  (incompletePct m.beneficiary + incompletePct m.taxWithholding +
    incompletePct m.contactInfo) / 3 * 0.40

/-- Modelled from the spec: recency bucket of the last non-financial update:
under one year 0, one to three years 30, three to five years 60, beyond 100. -/
def recencyBucket (years : ℚ) : ℚ :=
  if years < 1 then 0 else if years < 3 then 30 else if years < 5 then 60 else 100

/-- Modelled from the spec: Recency category (weight 0.30). -/
def recencyContribution (m : MissingInfoInput) : ℚ :=
  recencyBucket m.yearsSinceUpdate * 0.30

/-- Modelled from the spec: Regulatory Importance category (weight 0.20), a
severity-weighted count of missing regulatory-critical fields: beneficiary is
critical (weight 100), tax withholding high (75), contact medium (50). -/
def regulatoryContribution (m : MissingInfoInput) : ℚ :=
  ((if m.beneficiary = .missing then (100 : ℚ) else 0) +
   (if m.taxWithholding = .missing then 75 else 0) +
   (if m.contactInfo = .missing then 50 else 0)) / 225 * 100 * 0.20

/-- Modelled from the spec: Update Eligibility category (weight 0.10), the
ratio of fields mechanically updatable through the administrative channel. -/
def updateEligibilityContribution (m : MissingInfoInput) : ℚ :=
  (if m.requiredFields = 0 then 0
   else (m.updatableFields : ℚ) / (m.requiredFields : ℚ) * 100) * 0.10

/-- Number of important fields that are missing or stale (not complete). -/
def importantIncompleteCount (m : MissingInfoInput) : Nat :=
  ([m.beneficiary, m.taxWithholding, m.contactInfo].filter
    (fun f => f ≠ .complete)).length

/-- Modelled from the spec: missing-information severity: HIGH above score 75
or whenever a critical regulatory field (beneficiary designation) is fully
missing; MEDIUM above 50 or with two or more important fields missing or
stale; LOW otherwise. -/
def missingInfoSeverity (m : MissingInfoInput) (total : ℚ) : Severity :=
  if 75 < total ∨ m.beneficiary = .missing then .HIGH
  else if 50 < total ∨ 2 ≤ importantIncompleteCount m then .MEDIUM
  else .LOW

/-- Modelled from the spec: the Missing/Incomplete Data Detector over the
four weighted categories (0.40, 0.30, 0.20, 0.10) on a 100-point scale. An
alert is emitted above the LOW breakpoint of 30, and always when the
critical-field rule or the two-plus-important-fields rule applies. -/
def missingInfoDetect (cfg : EngineConfig) (m : MissingInfoInput) : Option Alert :=
  let comp := completenessContribution m
  let rec' := recencyContribution m
  let reg := regulatoryContribution m
  let upd := updateEligibilityContribution m
  let total := comp + rec' + reg + upd
  if 30 < total ∨ m.beneficiary = .missing ∨ 2 ≤ importantIncompleteCount m then
    some
      { alertId := "MISSING_INFO-" ++ m.policyId
        alertType := "MISSING_INFO"
        severity := missingInfoSeverity m total
        score := total
        confidence := confidenceFromScore total
        breakdown :=
          [("data_completeness", comp), ("recency", rec'),
           ("regulatory_importance", reg), ("update_eligibility", upd)]
        reasons :=
          ["Required non-financial fields are missing or stale",
           "Field comparison table available for corrective pre-fill"]
        dataPointsAnalyzed := 8
        algorithmVersion := cfg.algorithmVersion
        profileRequired := false
        criticalMismatches := [] }
  else none

/-! ## Acquisition Opportunity Detector Family (spec section 4.6) -/

/-- Stated liquidity importance from the suitability profile. -/
inductive Importance
  | low
  | medium
  | high
deriving DecidableEq

/-- Life stage of the client used by the portfolio protection gate. -/
inductive LifeStage
  | accumulating
  | preRetirement
  | retired
deriving DecidableEq

/-- Risk tolerance band of the client. -/
inductive RiskTolerance
  | conservative
  | moderate
  | aggressive
deriving DecidableEq

/-- Client portfolio snapshot: the full position view plus the precomputed
allocation summary and the profile facts the eight acquisition detectors
consult (spec sections 3 and 4.6). -/
structure Portfolio where
  clientAccount : String
  totalValue : ℚ
  cashValue : ℚ
  cashYield : ℚ
  equityPct : ℚ
  annuityPct : ℚ
  age : Nat
  lifeStage : LifeStage
  primaryObjective : Objective
  liquidityImportance : Importance
  hasIncomeRiderAnnuity : Bool
  cdValue : ℚ
  cdDaysToMaturity : Int
  cdRate : ℚ
  taxableValue : ℚ
  highTaxBracket : Bool
  annuityInTaxable : Bool
  horizonYears : ℚ
  iraBalance : ℚ
  annuityInIRA : Bool
  estateValue : ℚ
  hasDependents : Bool
  hasDeathBenefit : Bool
  riskTolerance : RiskTolerance
  retirementYears : ℚ
  guaranteedIncomePct : ℚ
  incomeNeedSoon : Bool
deriving DecidableEq

/-- Modelled from the spec: shared constructor of an acquisition alert from
its three weighted components (amount or size, opportunity or benefit,
urgency); the total score is their sum on the 0 to 95 family scale, severity
comes from the shared breakpoints and confidence from the acquisition band. -/
def mkAcqAlert (cfg : EngineConfig) (ty account : String)
    (c1 c2 c3 : String × ℚ) (reason : String) : Alert :=
  let total := c1.2 + c2.2 + c3.2
  { alertId := ty ++ "-" ++ account
    alertType := ty
    severity := scoreToSeverity total
    score := total
    confidence := acqConfidence total
    breakdown := [c1, c2, c3]
    reasons := [reason]
    dataPointsAnalyzed := 9
    algorithmVersion := cfg.algorithmVersion
    profileRequired := false
    criticalMismatches := [] }

/-- Modelled from the spec: EXCESS_LIQUIDITY entity-level trigger: cash above
the percentage-of-portfolio threshold and above the absolute-dollar
threshold, client under 75, low stated liquidity importance. -/
def excessLiquidityTrigger (cfg : EngineConfig) (p : Portfolio) : Bool :=
  decide (cfg.cashPctThreshold * p.totalValue < p.cashValue) &&
  decide (cfg.cashDollarThreshold < p.cashValue) &&
  decide (p.age < 75) &&
  decide (p.liquidityImportance = .low)

/-- Modelled from the spec: annual yield improvement of the reference annuity
rate over the current cash yield, applied to the cash amount. -/
def annualYieldImprovement (cfg : EngineConfig) (p : Portfolio) : ℚ :=
  p.cashValue * (cfg.refAnnuityRate - p.cashYield)

/-- Modelled from the spec: the EXCESS_LIQUIDITY detector, scoring the cash
amount (up to 40), the annual yield improvement (up to 30) and the urgency
from stated liquidity importance (10 or 20), gated by its trigger. -/
def excessLiquidityDetect (cfg : EngineConfig) (p : Portfolio) : Option Alert :=
  if excessLiquidityTrigger cfg p then
    some (mkAcqAlert cfg "EXCESS_LIQUIDITY" p.clientAccount
      ("amount_score", min 40 (p.cashValue / 100000 * 10))
      ("opportunity_score", min 30 (annualYieldImprovement cfg p / 5000 * 10))
      ("urgency_score", if p.liquidityImportance = .low then 20 else 10)
      "Cash and money market holdings earning below the reference annuity rate")
  else none

/-- Modelled from the spec: PORTFOLIO_UNPROTECTED trigger: high equity
allocation at or after a retirement-proximity age, pre-retirement or retired
life stage, income or protection objective, no guaranteed-income product. -/
def unprotectedTrigger (p : Portfolio) : Bool :=
  decide ((0.60 : ℚ) < p.equityPct) &&
  decide (55 ≤ p.age) &&
  (decide (p.lifeStage = .preRetirement) || decide (p.lifeStage = .retired)) &&
  (decide (p.primaryObjective = .income) || decide (p.primaryObjective = .protection)) &&
  !p.hasIncomeRiderAnnuity

/-- Modelled from the spec: the PORTFOLIO_UNPROTECTED detector, scoring
equity concentration, age, and absence of income protection. -/
def unprotectedDetect (cfg : EngineConfig) (p : Portfolio) : Option Alert :=
  if unprotectedTrigger p then
    some (mkAcqAlert cfg "PORTFOLIO_UNPROTECTED" p.clientAccount
      ("equity_concentration", min 40 (p.equityPct * 50))
      ("age_proximity", min 30 (((p.age : ℚ) - 50) * 1.5))
      ("protection_absence", if p.annuityPct = 0 then 25 else 15)
      "High equity exposure near retirement with no guaranteed income layer")
  else none

/-- Modelled from the spec: CD_MATURITY trigger: a certificate position above
the dollar threshold maturing within 90 days, at a rate below 4.0, with the
reference guaranteed-rate product beating it by more than 1.0. -/
def cdMaturityTrigger (cfg : EngineConfig) (p : Portfolio) : Bool :=
  decide (cfg.cashDollarThreshold < p.cdValue) &&
  decide (p.cdDaysToMaturity ≤ 90) &&
  decide (p.cdRate < 4) &&
  decide (p.cdRate + 1 < cfg.bestMYGARate)

/-- Modelled from the spec: the CD_MATURITY detector, scoring the amount, the
rate improvement and the days to maturity. -/
def cdMaturityDetect (cfg : EngineConfig) (p : Portfolio) : Option Alert :=
  if cdMaturityTrigger cfg p then
    some (mkAcqAlert cfg "CD_MATURITY" p.clientAccount
      ("amount_score", min 40 (p.cdValue / 100000 * 10))
      ("rate_improvement", min 35 ((cfg.bestMYGARate - p.cdRate) * 10))
      ("urgency_score", if p.cdDaysToMaturity ≤ 30 then 20 else 10)
      "Certificate of deposit maturing with a better guaranteed rate available")
  else none

/-- Modelled from the spec: INCOME_GAP trigger: near-term retirement horizon,
income objective, stated near-term income need, guaranteed income sources
below half of the pre-retirement income target, no income rider in place. -/
def incomeGapTrigger (p : Portfolio) : Bool :=
  decide (60 ≤ p.age) &&
  decide (p.retirementYears ≤ 3) &&
  decide (p.primaryObjective = .income) &&
  p.incomeNeedSoon &&
  decide (p.guaranteedIncomePct < 0.50) &&
  !p.hasIncomeRiderAnnuity

/-- Modelled from the spec: the INCOME_GAP detector, scoring the gap size and
the retirement proximity. -/
def incomeGapDetect (cfg : EngineConfig) (p : Portfolio) : Option Alert :=
  if incomeGapTrigger p then
    some (mkAcqAlert cfg "INCOME_GAP" p.clientAccount
      ("gap_size", min 50 ((0.50 - p.guaranteedIncomePct) * 100))
      ("proximity_score", min 30 ((3 - p.retirementYears) * 10))
      ("objective_score", 15)
      "Projected guaranteed income falls short of the retirement income target")
  else none

/-- Modelled from the spec: TAX_INEFFICIENCY trigger: taxable holdings above
the documented dollar threshold, a high tax bracket, no annuity in taxable
accounts, an investment horizon beyond five years. -/
def taxInefficiencyTrigger (p : Portfolio) : Bool :=
  decide ((100000 : ℚ) < p.taxableValue) &&
  p.highTaxBracket &&
  !p.annuityInTaxable &&
  decide ((5 : ℚ) < p.horizonYears)

/-- Modelled from the spec: the TAX_INEFFICIENCY detector, scoring the
taxable amount, the bracket-driven benefit and the horizon-driven urgency. -/
def taxInefficiencyDetect (cfg : EngineConfig) (p : Portfolio) : Option Alert :=
  if taxInefficiencyTrigger p then
    some (mkAcqAlert cfg "TAX_INEFFICIENCY" p.clientAccount
      ("amount_score", min 40 (p.taxableValue / 100000 * 10))
      ("benefit_score", if p.highTaxBracket then 30 else 15)
      ("urgency_score", min 25 (p.horizonYears * 2))
      "Taxable account drag that tax deferral would remove")
  else none

/-- Modelled from the spec: QUALIFIED_OPPORTUNITY trigger: an IRA balance
above 500,000, age 65 or above, no annuity inside the IRA. -/
def qualifiedOpportunityTrigger (p : Portfolio) : Bool :=
  decide ((500000 : ℚ) < p.iraBalance) &&
  decide (65 ≤ p.age) &&
  !p.annuityInIRA

/-- Modelled from the spec: the QUALIFIED_OPPORTUNITY detector, scoring the
qualified balance, the annuitization benefit and the age-driven urgency. -/
def qualifiedOpportunityDetect (cfg : EngineConfig) (p : Portfolio) : Option Alert :=
  if qualifiedOpportunityTrigger p then
    some (mkAcqAlert cfg "QUALIFIED_OPPORTUNITY" p.clientAccount
      ("amount_score", min 45 (p.iraBalance / 200000 * 10))
      ("benefit_score", 30)
      ("urgency_score", min 20 ((p.age : ℚ) - 55))
      "Large qualified balance with no annuitization in place")
  else none

/-- Modelled from the spec: BENEFICIARY_PLANNING trigger: estate value above
one million, dependents present, no death benefit protection, under 70. -/
def beneficiaryPlanningTrigger (p : Portfolio) : Bool :=
  decide ((1000000 : ℚ) < p.estateValue) &&
  p.hasDependents &&
  !p.hasDeathBenefit &&
  decide (p.age < 70)

/-- Modelled from the spec: the BENEFICIARY_PLANNING detector, scoring the
estate size, the dependent-driven benefit and the age-driven urgency. -/
def beneficiaryPlanningDetect (cfg : EngineConfig) (p : Portfolio) : Option Alert :=
  if beneficiaryPlanningTrigger p then
    some (mkAcqAlert cfg "BENEFICIARY_PLANNING" p.clientAccount
      ("amount_score", min 40 (p.estateValue / 500000 * 10))
      ("benefit_score", if p.hasDependents then 30 else 15)
      ("urgency_score", min 25 ((75 : ℚ) - (p.age : ℚ)))
      "Estate lacks guaranteed death benefit protection")
  else none

/-- Modelled from the spec: DIVERSIFICATION_GAP trigger: portfolio above
500,000 with zero insurance-product allocation, age 50 or above, conservative
or moderate risk tolerance. -/
def diversificationGapTrigger (p : Portfolio) : Bool :=
  decide ((500000 : ℚ) < p.totalValue) &&
  decide (p.annuityPct = 0) &&
  decide (50 ≤ p.age) &&
  (decide (p.riskTolerance = .conservative) || decide (p.riskTolerance = .moderate))

/-- Modelled from the spec: the DIVERSIFICATION_GAP detector, scoring the
portfolio size, the missing-allocation benefit and a flat urgency. -/
def diversificationGapDetect (cfg : EngineConfig) (p : Portfolio) : Option Alert :=
  if diversificationGapTrigger p then
    some (mkAcqAlert cfg "DIVERSIFICATION_GAP" p.clientAccount
      ("amount_score", min 40 (p.totalValue / 200000 * 10))
      ("benefit_score", if p.annuityPct = 0 then 30 else 10)
      ("urgency_score", 15)
      "No insurance products anywhere in the portfolio")
  else none

/-! ## Batch Orchestrator (spec sections 2 and 5) -/

/-- Stable insertion of an element into a list already ordered by the rank
key: the element lands after every earlier element whose rank is less than or
equal to its own, preserving relative order among equal ranks exactly as the
stable comparator sorts of the runtime do. -/
def stableInsert {α : Type} (r : α → Nat) (x : α) : List α → List α
  | [] => [x]
  | y :: ys => if r y ≤ r x then y :: stableInsert r x ys else x :: y :: ys

/-- Stable sort by a numeric rank key, inserting the elements left to right. -/
def stableSortBy {α : Type} (r : α → Nat) (l : List α) : List α :=
  l.foldl (fun acc x => stableInsert r x acc) []

/-- Sort key placing HIGH before MEDIUM before LOW. -/
def sevSortKey (sv : Severity) : Nat :=
  2 - sevRank sv

/-- Modelled from the spec: the single output ordering pass: alerts sorted by
severity, HIGH first, applied once on the collected results. -/
def sortAlertsBySeverity (l : List Alert) : List Alert :=
  stableSortBy (fun a => sevSortKey a.severity) l

/-- One policy entity as the orchestrator joins it: the policy record with
the optional profile views each policy-level detector needs. -/
structure PolicyEntity where
  policy : PolicyRecord
  replacementProfile : Option ReplacementProfile
  incomeInput : Option IncomeActivationInput
  originalSuit : Option SuitSnapshot
  currentSuit : Option SuitSnapshot
  missingInfo : MissingInfoInput
deriving DecidableEq

/-- Input snapshot of one batch run: the policy entities, the client
portfolios, and the shared product catalog reference data. -/
structure Snapshot where
  policies : List PolicyEntity
  portfolios : List Portfolio
  catalog : CatalogRef
deriving DecidableEq

/-- Output of one batch run: the policy-level and the client-level alert
collections, each sorted by severity. -/
structure BatchOutput where
  policyAlerts : List Alert
  acquisitionAlerts : List Alert
deriving DecidableEq

/-- Modelled from the spec: the four policy-level detectors applied to one
policy entity, collecting zero or one alert from each. -/
def policyAlertsFor (cfg : EngineConfig) (cat : CatalogRef)
    (e : PolicyEntity) : List Alert :=
  (replacementDetect cfg e.policy e.replacementProfile cat).toList ++
  (incomeActivationDetect cfg e.policy.policyId e.incomeInput).toList ++
  (driftDetect cfg e.policy e.originalSuit e.currentSuit).toList ++
  (missingInfoDetect cfg e.missingInfo).toList

/-- Modelled from the spec: the eight acquisition detectors applied to one
client portfolio, collecting zero or one alert from each. -/
def acqAlertsFor (cfg : EngineConfig) (p : Portfolio) : List Alert :=
  (excessLiquidityDetect cfg p).toList ++
  (unprotectedDetect cfg p).toList ++
  (cdMaturityDetect cfg p).toList ++
  (incomeGapDetect cfg p).toList ++
  (taxInefficiencyDetect cfg p).toList ++
  (qualifiedOpportunityDetect cfg p).toList ++
  (beneficiaryPlanningDetect cfg p).toList ++
  (diversificationGapDetect cfg p).toList

/-- Modelled from the spec: the Batch Orchestrator. Loads the snapshot,
runs the policy-level detectors over every policy entity and the acquisition
detectors over every portfolio, and applies the single severity sort on each
collected output list. A pure function of configuration and snapshot. -/
def runBatch (cfg : EngineConfig) (snap : Snapshot) : BatchOutput :=
  { policyAlerts :=
      sortAlertsBySeverity (snap.policies.flatMap (policyAlertsFor cfg snap.catalog))
    acquisitionAlerts :=
      sortAlertsBySeverity (snap.portfolios.flatMap (acqAlertsFor cfg)) }

/-! ## TypeScript embedding: acquisition-alerts-list.component.ts

The `processAlerts` method of `AcquisitionAlertsListComponent` (the dialog
that hands the collected acquisition alerts to the advisor) flattens the
per-client alert groups into rows and then sorts the rows in place with the
comparator

  `(severityOrder[a.severity] || 3) - (severityOrder[b.severity] || 3)`

over `severityOrder = { HIGH: 0, MEDIUM: 1, LOW: 2 }`. The JavaScript
or-operator treats the number 0 as falsy, which matters for the HIGH entry
and is embedded exactly below. -/

/-- One alert row as the dialog receives it inside a client group. -/
structure TsAlertRow where
  severity : String
  alertType : String
deriving DecidableEq

/-- One client group of the `allAlerts` dialog input. -/
structure TsClientData where
  clientName : String
  clientAccountNumber : String
  totalPortfolioValue : ℚ
  alerts : List TsAlertRow
deriving DecidableEq

/-- One flattened row of the dialog table, the alert fields merged with the
client fields, as `processAlerts` builds it. -/
structure TsFlatRow where
  severity : String
  alertType : String
  clientName : String
  clientAccountNumber : String
  totalPortfolioValue : ℚ
deriving DecidableEq

/-- The `severityOrder` lookup object of `processAlerts`: HIGH maps to 0,
MEDIUM to 1, LOW to 2, any other key is absent. -/
def severityOrderLookup (s : String) : Option Nat :=
  if s = "HIGH" then some 0
  else if s = "MEDIUM" then some 1
  else if s = "LOW" then some 2
  else none

/-- JavaScript `x || d` on an optional number: an absent value yields the
default, and so does the present value 0, because 0 is falsy. -/
def jsOrElse (v : Option Nat) (dflt : Nat) : Nat :=
  match v with
  | none => dflt
  | some n => if n = 0 then dflt else n

/-- Effective sort rank the comparator of `processAlerts` assigns to a
severity string: `severityOrder[s] || 3`. -/
def tsEffectiveRank (s : String) : Nat :=
  jsOrElse (severityOrderLookup s) 3

/-- The flattening loop of `processAlerts`: each row is one alert with the
client fields copied in. -/
def flattenClientAlerts (cds : List TsClientData) : List TsFlatRow :=
  cds.flatMap (fun cd =>
    cd.alerts.map (fun a =>
      { severity := a.severity
        alertType := a.alertType
        clientName := cd.clientName
        clientAccountNumber := cd.clientAccountNumber
        totalPortfolioValue := cd.totalPortfolioValue }))

/-- The `processAlerts` method of the acquisition alerts dialog: flatten the
client groups, then sort the rows with the stable runtime sort under the
comparator rank `severityOrder[severity] || 3`. -/
def processAlerts (cds : List TsClientData) : List TsFlatRow :=
  stableSortBy (fun r => tsEffectiveRank r.severity) (flattenClientAlerts cds)

/-! ## TypeScript embedding: missing-info-module.component.ts

The update form of `MissingInfoModuleComponent` holds the beneficiary
allocations as nullable numeric controls. `validateAllocations` reads them
through `?.value || 0`, and `onSubmit` rejects the submission with an error
message, emitting no completion event, whenever the form is invalid or the
allocation rule fails. -/

/-- The slice of the Angular `updateForm` state that `validateAllocations`
and `onSubmit` consult: the two allocation controls (nullable numbers), the
contingent name control (empty string when unset), and the validity of the
remaining Angular validators. -/
structure UpdateFormState where
  primaryAllocation : Option ℚ
  contingentAllocation : Option ℚ
  contingentName : String
  formInvalid : Bool
deriving DecidableEq

/-- The `validateAllocations` method: with no contingent beneficiary name the
primary allocation must equal exactly 100; with a contingent name present the
primary plus contingent total must equal exactly 100. Nullable control values
read as 0 through the JavaScript `?.value || 0` pattern. -/
def validateAllocations (f : UpdateFormState) : Bool :=
  let primaryAlloc := f.primaryAllocation.getD 0
  let contingentAlloc := f.contingentAllocation.getD 0
  let total := primaryAlloc + contingentAlloc
  if f.contingentName = "" then primaryAlloc == 100
  else total == 100

/-- Outcome of one submission attempt: either rejected with the error message
shown to the user and no event emitted, or completed with the
`update_complete` event payload. -/
inductive SubmitOutcome
  | rejectedWith (msg : String)
  | completed (alertId policyId : String)
deriving DecidableEq

/-- The error message `onSubmit` assigns to `submitError` on rejection. -/
def allocationErrorMsg : String :=
  "Please fill in all required fields and ensure allocations total 100%"

/-- The `onSubmit` method: when the form is invalid or `validateAllocations`
fails, set the error message and return without emitting; otherwise mark
success and emit the `update_complete` event for the alert and policy. -/
def onSubmit (alertId policyId : String) (f : UpdateFormState) : SubmitOutcome :=
  if f.formInvalid || !validateAllocations f then
    .rejectedWith allocationErrorMsg
  else
    .completed alertId policyId

/-! ## Outcome predicates used by the claim statements -/

/-- Holds when an optional detector result is present, score-capped at 52 of
95 and carrying the profile-required flag: the degraded no-profile path of
the replacement detector. -/
def degradedProfileOk (od : Option Alert) : Prop :=
  match od with
  | none => False
  | some a => a.score ≤ 52 ∧ a.profileRequired = true

/-- Holds when an optional detector result is present with severity HIGH and
a non-empty critical mismatch list. -/
def criticalHighOk (od : Option Alert) : Prop :=
  match od with
  | none => False
  | some a => a.severity = .HIGH ∧ a.criticalMismatches ≠ []

/-- Holds when an optional detector result is present with exactly the given
severity. -/
def sevIs (sv : Severity) (od : Option Alert) : Prop :=
  match od with
  | none => False
  | some a => a.severity = sv

/-! ## Concrete demonstration inputs

These records reproduce the documented demonstration scenario: policy
POL-90002 with a 3.4 cap rate against the 5.5 benchmark and the 6.0 best
catalog cap, its surrender schedule ending in 8 months, and the sample
client portfolios of the acquisition data set. -/

/-- The documented demonstration policy: cap rate 3.4, surrender schedule
ending in 243 days, 2 percent surrender charge, 1.25 percent fees, 150,000
account value, no income rider. -/
def demoPolicy : PolicyRecord :=
  { policyId := "POL-90002"
    currentCapRate := 3.4
    daysToSurrenderEnd := 243
    surrenderChargePct := 2
    currentFeePct := 1.25
    accountValue := 150000
    hasIncomeRider := false }

/-- The documented best catalog alternative: 6.0 cap, 0.95 fees, income
rider available. -/
def demoCatalog : CatalogRef :=
  { bestCap := 6
    bestFeePct := 0.95
    incomeRiderAvailable := true
    betterDeathBenefit := false
    betterLiquidity := false }

/-- A fully-aligned suitability profile for the demonstration policy. -/
def demoProfile : ReplacementProfile :=
  { riskMatch := .full, objectiveMatch := .full, horizonMatch := .full }

/-- Issue-time suitability snapshot of the demonstration client: growth
objective, conservative risk, long horizon. -/
def demoOriginalSuit : SuitSnapshot :=
  { riskLevel := 0
    objective := .growth
    netWorth := 500000
    annualIncome := 120000
    horizonYears := 15 }

/-- Current suitability snapshot of the demonstration client: the objective
shifted to income, risk one level up, horizon shortened. -/
def demoCurrentSuit : SuitSnapshot :=
  { riskLevel := 1
    objective := .income
    netWorth := 710000
    annualIncome := 141600
    horizonYears := 7 }

/-- Demonstration missing-information input: primary beneficiary not
designated, tax withholding unset, contact info complete, last update six
years ago. -/
def demoMissingInfo : MissingInfoInput :=
  { policyId := "POL-90002"
    beneficiary := .missing
    taxWithholding := .missing
    contactInfo := .complete
    yearsSinceUpdate := 6
    updatableFields := 2
    requiredFields := 3 }

/-- Demonstration portfolio with a modest excess-cash position: 60,000 cash
of a 500,000 portfolio at a 3.5 percent yield, low liquidity importance.
Fires the excess-liquidity gate with a LOW-band score. -/
def lowScorePortfolio : Portfolio :=
  { clientAccount := "101-123456-001"
    totalValue := 500000
    cashValue := 60000
    cashYield := 0.035
    equityPct := 0.55
    annuityPct := 0.05
    age := 60
    lifeStage := .preRetirement
    primaryObjective := .growth
    liquidityImportance := .low
    hasIncomeRiderAnnuity := false
    cdValue := 0
    cdDaysToMaturity := 400
    cdRate := 4.5
    taxableValue := 0
    highTaxBracket := false
    annuityInTaxable := false
    horizonYears := 10
    iraBalance := 0
    annuityInIRA := false
    estateValue := 0
    hasDependents := false
    hasDeathBenefit := true
    riskTolerance := .moderate
    retirementYears := 5
    guaranteedIncomePct := 0.6
    incomeNeedSoon := false }

/-- Demonstration portfolio with a very large cash position whose component
scores would be high, but whose stated liquidity importance is high, so the
excess-liquidity entity gate is false. -/
def gatedPortfolio : Portfolio :=
  { clientAccount := "104-555777-001"
    totalValue := 2450000
    cashValue := 450000
    cashYield := 0.005
    equityPct := 0.55
    annuityPct := 0.05
    age := 58
    lifeStage := .preRetirement
    primaryObjective := .growth
    liquidityImportance := .high
    hasIncomeRiderAnnuity := false
    cdValue := 0
    cdDaysToMaturity := 400
    cdRate := 4.5
    taxableValue := 0
    highTaxBracket := false
    annuityInTaxable := false
    horizonYears := 10
    iraBalance := 0
    annuityInIRA := false
    estateValue := 0
    hasDependents := false
    hasDeathBenefit := true
    riskTolerance := .moderate
    retirementYears := 5
    guaranteedIncomePct := 0.6
    incomeNeedSoon := false }

/-- One complete demonstration snapshot for the batch orchestrator. -/
def demoSnapshot : Snapshot :=
  { policies :=
      [{ policy := demoPolicy
         replacementProfile := some demoProfile
         incomeInput := none
         originalSuit := some demoOriginalSuit
         currentSuit := some demoCurrentSuit
         missingInfo := demoMissingInfo }]
    portfolios := [lowScorePortfolio]
    catalog := demoCatalog }

/-- Dialog input with one client group holding one HIGH and one MEDIUM
acquisition alert, the failing input of the severity sort. -/
def c9DemoInput : List TsClientData :=
  [{ clientName := "Milovich Pichirallo"
     clientAccountNumber := "101-123456-001"
     totalPortfolioValue := 1000000
     alerts :=
       [{ severity := "HIGH", alertType := "EXCESS_LIQUIDITY" },
        { severity := "MEDIUM", alertType := "CD_MATURITY" }] }]

/-- Form state with no contingent beneficiary and a primary allocation of 80,
which must be rejected. -/
def c10NoContingentBad : UpdateFormState :=
  { primaryAllocation := some 80
    contingentAllocation := none
    contingentName := ""
    formInvalid := false }

/-- Form state naming a contingent beneficiary with allocations totalling 90,
which must be rejected. -/
def c10WithContingentBad : UpdateFormState :=
  { primaryAllocation := some 60
    contingentAllocation := some 30
    contingentName := "Jamie Doe"
    formInvalid := false }

/-- Valid form state naming a contingent beneficiary with allocations
totalling exactly 100. -/
def c10GoodForm : UpdateFormState :=
  { primaryAllocation := some 60
    contingentAllocation := some 40
    contingentName := "Jamie Doe"
    formInvalid := false }

/-! ## Theorems -/

/-- C1: For every fixed input snapshot and fixed configuration, running the
batch engine twice produces identical alert collections: the same alert
identifiers, the same scores, the same reason lists, and the same ordering,
with no alert differing between the two runs. In the embedding the engine is
a pure function of configuration and snapshot, consulting nothing else, so
two runs on equal snapshots agree on every output component. -/
theorem c1_batch_idempotent (cfg : EngineConfig) (s1 s2 : Snapshot)
    (h : s1 = s2) :
    runBatch cfg s1 = runBatch cfg s2 ∧
    (runBatch cfg s1).policyAlerts.map Alert.alertId =
      (runBatch cfg s2).policyAlerts.map Alert.alertId ∧
    (runBatch cfg s1).policyAlerts.map Alert.score =
      (runBatch cfg s2).policyAlerts.map Alert.score ∧
    (runBatch cfg s1).policyAlerts.map Alert.reasons =
      (runBatch cfg s2).policyAlerts.map Alert.reasons ∧
    (runBatch cfg s1).acquisitionAlerts = (runBatch cfg s2).acquisitionAlerts := by
  subst h
  exact ⟨rfl, rfl, rfl, rfl, rfl⟩

/-- Witness for C1 on the concrete demonstration snapshot. -/
theorem c1_batch_idempotent_witness :
    demoSnapshot = demoSnapshot ∧
    (runBatch defaultConfig demoSnapshot = runBatch defaultConfig demoSnapshot ∧
     (runBatch defaultConfig demoSnapshot).policyAlerts.map Alert.alertId =
       (runBatch defaultConfig demoSnapshot).policyAlerts.map Alert.alertId ∧
     (runBatch defaultConfig demoSnapshot).policyAlerts.map Alert.score =
       (runBatch defaultConfig demoSnapshot).policyAlerts.map Alert.score ∧
     (runBatch defaultConfig demoSnapshot).policyAlerts.map Alert.reasons =
       (runBatch defaultConfig demoSnapshot).policyAlerts.map Alert.reasons ∧
     (runBatch defaultConfig demoSnapshot).acquisitionAlerts =
       (runBatch defaultConfig demoSnapshot).acquisitionAlerts) :=
  ⟨rfl, c1_batch_idempotent defaultConfig demoSnapshot demoSnapshot rfl⟩

/-- Helper: an exact equality gives the 0.01 tolerance bound. -/
theorem absDiffLe {x y : ℚ} (h : x = y) : |x - y| ≤ 1 / 100 := by
  rw [h, sub_self, abs_zero]
  norm_num

/-- C2: For every alert emitted by any detector family, the reported total
score equals the sum of the weighted components listed in its score
breakdown, within a tolerance of 0.01. In the embedding the equality is
exact for all twelve detectors. -/
theorem c2_score_equals_breakdown_sum :
    (∀ cfg p profOpt cat, breakdownConsistent (replacementDetect cfg p profOpt cat)) ∧
    (∀ cfg pid inpOpt, breakdownConsistent (incomeActivationDetect cfg pid inpOpt)) ∧
    (∀ cfg p o c, breakdownConsistent (driftDetect cfg p o c)) ∧
    (∀ cfg m, breakdownConsistent (missingInfoDetect cfg m)) ∧
    (∀ cfg p,
      breakdownConsistent (excessLiquidityDetect cfg p) ∧
      breakdownConsistent (unprotectedDetect cfg p) ∧
      breakdownConsistent (cdMaturityDetect cfg p) ∧
      breakdownConsistent (incomeGapDetect cfg p) ∧
      breakdownConsistent (taxInefficiencyDetect cfg p) ∧
      breakdownConsistent (qualifiedOpportunityDetect cfg p) ∧
      breakdownConsistent (beneficiaryPlanningDetect cfg p) ∧
      breakdownConsistent (diversificationGapDetect cfg p)) := by
  refine ⟨?_, ?_, ?_, ?_, ?_⟩
  · intro cfg p profOpt cat
    unfold replacementDetect
    split
    · cases profOpt with
      | some pr =>
        simp only [breakdownConsistent, breakdownSum, List.map_cons, List.map_nil,
          List.sum_cons, List.sum_nil]
        exact absDiffLe (by ring)
      | none =>
        simp only [breakdownConsistent, breakdownSum, List.map_cons, List.map_nil,
          List.sum_cons, List.sum_nil]
        exact absDiffLe (by ring)
    · trivial
  · intro cfg pid inpOpt
    unfold incomeActivationDetect
    split
    · trivial
    · split
      · simp only [breakdownConsistent, breakdownSum, List.map_cons, List.map_nil,
          List.sum_cons, List.sum_nil]
        exact absDiffLe (by ring)
      · trivial
  · intro cfg p o c
    unfold driftDetect
    split
    · dsimp only
      split
      · simp only [breakdownConsistent, breakdownSum, List.map_cons, List.map_nil,
          List.sum_cons, List.sum_nil]
        exact absDiffLe (by ring)
      · trivial
    · trivial
  · intro cfg m
    unfold missingInfoDetect
    dsimp only
    split
    · simp only [breakdownConsistent, breakdownSum, List.map_cons, List.map_nil,
        List.sum_cons, List.sum_nil]
      exact absDiffLe (by ring)
    · trivial
  · intro cfg p
    refine ⟨?_, ?_, ?_, ?_, ?_, ?_, ?_, ?_⟩
    · unfold excessLiquidityDetect
      split
      · simp only [breakdownConsistent, breakdownSum, mkAcqAlert, List.map_cons,
          List.map_nil, List.sum_cons, List.sum_nil]
        exact absDiffLe (by ring)
      · trivial
    · unfold unprotectedDetect
      split
      · simp only [breakdownConsistent, breakdownSum, mkAcqAlert, List.map_cons,
          List.map_nil, List.sum_cons, List.sum_nil]
        exact absDiffLe (by ring)
      · trivial
    · unfold cdMaturityDetect
      split
      · simp only [breakdownConsistent, breakdownSum, mkAcqAlert, List.map_cons,
          List.map_nil, List.sum_cons, List.sum_nil]
        exact absDiffLe (by ring)
      · trivial
    · unfold incomeGapDetect
      split
      · simp only [breakdownConsistent, breakdownSum, mkAcqAlert, List.map_cons,
          List.map_nil, List.sum_cons, List.sum_nil]
        exact absDiffLe (by ring)
      · trivial
    · unfold taxInefficiencyDetect
      split
      · simp only [breakdownConsistent, breakdownSum, mkAcqAlert, List.map_cons,
          List.map_nil, List.sum_cons, List.sum_nil]
        exact absDiffLe (by ring)
      · trivial
    · unfold qualifiedOpportunityDetect
      split
      · simp only [breakdownConsistent, breakdownSum, mkAcqAlert, List.map_cons,
          List.map_nil, List.sum_cons, List.sum_nil]
        exact absDiffLe (by ring)
      · trivial
    · unfold beneficiaryPlanningDetect
      split
      · simp only [breakdownConsistent, breakdownSum, mkAcqAlert, List.map_cons,
          List.map_nil, List.sum_cons, List.sum_nil]
        exact absDiffLe (by ring)
      · trivial
    · unfold diversificationGapDetect
      split
      · simp only [breakdownConsistent, breakdownSum, mkAcqAlert, List.map_cons,
          List.map_nil, List.sum_cons, List.sum_nil]
        exact absDiffLe (by ring)
      · trivial

/-- C3: For every alert in the families using the shared mapping, severity is
a pure, monotonically non-decreasing function of the numeric score alone: a
score at least 75 yields HIGH, a score in the interval from 60 inclusive to
75 exclusive yields MEDIUM, a score below 60 yields LOW; two alerts with
equal scores in the same family receive the same severity. The acquisition
detectors all derive severity from the score through this mapping. -/
theorem c3_shared_severity_mapping :
    (∀ s : ℚ, 75 ≤ s → scoreToSeverity s = .HIGH) ∧
    (∀ s : ℚ, 60 ≤ s → s < 75 → scoreToSeverity s = .MEDIUM) ∧
    (∀ s : ℚ, s < 60 → scoreToSeverity s = .LOW) ∧
    (∀ s t : ℚ, s ≤ t → sevRank (scoreToSeverity s) ≤ sevRank (scoreToSeverity t)) ∧
    (∀ s t : ℚ, s = t → scoreToSeverity s = scoreToSeverity t) ∧
    (∀ cfg p,
      sevFromSharedMapping (excessLiquidityDetect cfg p) ∧
      sevFromSharedMapping (unprotectedDetect cfg p) ∧
      sevFromSharedMapping (cdMaturityDetect cfg p) ∧
      sevFromSharedMapping (incomeGapDetect cfg p) ∧
      sevFromSharedMapping (taxInefficiencyDetect cfg p) ∧
      sevFromSharedMapping (qualifiedOpportunityDetect cfg p) ∧
      sevFromSharedMapping (beneficiaryPlanningDetect cfg p) ∧
      sevFromSharedMapping (diversificationGapDetect cfg p)) := by
  refine ⟨?_, ?_, ?_, ?_, ?_, ?_⟩
  · intro s hs
    simp [scoreToSeverity, hs]
  · intro s hs1 hs2
    have h : ¬(75 : ℚ) ≤ s := by linarith
    simp [scoreToSeverity, h, hs1]
  · intro s hs
    have h1 : ¬(75 : ℚ) ≤ s := by linarith
    have h2 : ¬(60 : ℚ) ≤ s := by linarith
    simp [scoreToSeverity, h1, h2]
  · intro s t hst
    unfold scoreToSeverity
    split_ifs with h1 h2 h3 h4 h5 <;> simp [sevRank] <;> linarith
  · intro s t h
    rw [h]
  · intro cfg p
    refine ⟨?_, ?_, ?_, ?_, ?_, ?_, ?_, ?_⟩
    · unfold excessLiquidityDetect
      split
      · simp [sevFromSharedMapping, mkAcqAlert]
      · trivial
    · unfold unprotectedDetect
      split
      · simp [sevFromSharedMapping, mkAcqAlert]
      · trivial
    · unfold cdMaturityDetect
      split
      · simp [sevFromSharedMapping, mkAcqAlert]
      · trivial
    · unfold incomeGapDetect
      split
      · simp [sevFromSharedMapping, mkAcqAlert]
      · trivial
    · unfold taxInefficiencyDetect
      split
      · simp [sevFromSharedMapping, mkAcqAlert]
      · trivial
    · unfold qualifiedOpportunityDetect
      split
      · simp [sevFromSharedMapping, mkAcqAlert]
      · trivial
    · unfold beneficiaryPlanningDetect
      split
      · simp [sevFromSharedMapping, mkAcqAlert]
      · trivial
    · unfold diversificationGapDetect
      split
      · simp [sevFromSharedMapping, mkAcqAlert]
      · trivial

/-- Witness for C3: the three breakpoints at scores 80, 65 and 50, the
monotone rank comparison at 65 against 80, and the congruence at 65. -/
theorem c3_shared_severity_mapping_witness :
    ((75 : ℚ) ≤ 80 ∧ scoreToSeverity 80 = .HIGH) ∧
    ((60 : ℚ) ≤ 65 ∧ (65 : ℚ) < 75 ∧ scoreToSeverity 65 = .MEDIUM) ∧
    ((50 : ℚ) < 60 ∧ scoreToSeverity 50 = .LOW) ∧
    ((65 : ℚ) ≤ 80 ∧ sevRank (scoreToSeverity 65) ≤ sevRank (scoreToSeverity 80)) ∧
    scoreToSeverity 65 = scoreToSeverity 65 :=
  ⟨⟨by norm_num, c3_shared_severity_mapping.1 80 (by norm_num)⟩,
   ⟨by norm_num, by norm_num,
    c3_shared_severity_mapping.2.1 65 (by norm_num) (by norm_num)⟩,
   ⟨by norm_num, c3_shared_severity_mapping.2.2.1 50 (by norm_num)⟩,
   ⟨by norm_num, c3_shared_severity_mapping.2.2.2.1 65 80 (by norm_num)⟩,
   c3_shared_severity_mapping.2.2.2.2.1 65 65 rfl⟩

/-- Helper: the shared confidence mapping stays inside the closed interval
from 0.65 to 0.95. -/
theorem confidenceFromScore_mem_range (s : ℚ) :
    0.65 ≤ confidenceFromScore s ∧ confidenceFromScore s ≤ 0.95 := by
  unfold confidenceFromScore
  split_ifs with h1 h2
  · exact ⟨le_min (by norm_num) (by linarith), min_le_left _ _⟩
  · constructor
    · nlinarith
    · nlinarith
  · norm_num

/-- Helper: the acquisition confidence rule stays inside the closed band from
0.70 to 0.95. -/
theorem acqConfidence_mem_band (s : ℚ) :
    0.70 ≤ acqConfidence s ∧ acqConfidence s ≤ 0.95 := by
  unfold acqConfidence
  exact ⟨le_max_left _ _, max_le (by norm_num) (min_le_left _ _)⟩

/-- Counterexample to C4: the excess-liquidity acquisition alert on the
documented low-score demonstration portfolio reports confidence 0.771, while
the claimed piecewise formula would demand 0.65 at its score, so not every
alert follows that formula. -/
theorem c4_confidence_counterexample :
    (excessLiquidityDetect defaultConfig lowScorePortfolio).map Alert.confidence =
      some 0.771 ∧
    (excessLiquidityDetect defaultConfig lowScorePortfolio).map
      (fun a => confidenceFromScore a.score) = some 0.65 ∧
    (0.771 : ℚ) ≠ 0.65 := by
  refine ⟨?_, ?_, by norm_num⟩
  · norm_num [excessLiquidityDetect, excessLiquidityTrigger, mkAcqAlert,
      annualYieldImprovement, acqConfidence, defaultConfig, lowScorePortfolio,
      min_def, max_def]
  · norm_num [excessLiquidityDetect, excessLiquidityTrigger, mkAcqAlert,
      annualYieldImprovement, confidenceFromScore, defaultConfig,
      lowScorePortfolio, min_def, max_def]

/-- C4 (amended): Every policy-level alert (replacement, income activation,
suitability drift, missing information) reports confidence equal to the
shared piecewise mapping of its score: 0.85 plus 0.01 per point above 75,
clamped to at most 0.95, when the score is at least 75; 0.75 plus 0.01 per
point above 60 when the score lies in the interval from 60 to 75; flat 0.65
otherwise. Acquisition alerts use the family band from 0.70 to 0.95 instead.
Consequently every reported confidence lies in the closed interval from 0.65
to 0.95. -/
theorem c4_confidence_mapping_amended :
    (∀ s : ℚ, 75 ≤ s → confidenceFromScore s = min 0.95 (0.85 + (s - 75) * 0.01)) ∧
    (∀ s : ℚ, 60 ≤ s → s < 75 → confidenceFromScore s = 0.75 + (s - 60) * 0.01) ∧
    (∀ s : ℚ, s < 60 → confidenceFromScore s = 0.65) ∧
    (∀ s : ℚ, 0.65 ≤ confidenceFromScore s ∧ confidenceFromScore s ≤ 0.95) ∧
    (∀ s : ℚ, 0.70 ≤ acqConfidence s ∧ acqConfidence s ≤ 0.95) ∧
    (∀ cfg p profOpt cat, confFromSharedMapping (replacementDetect cfg p profOpt cat)) ∧
    (∀ cfg pid inpOpt, confFromSharedMapping (incomeActivationDetect cfg pid inpOpt)) ∧
    (∀ cfg p o c, confFromSharedMapping (driftDetect cfg p o c)) ∧
    (∀ cfg m, confFromSharedMapping (missingInfoDetect cfg m)) ∧
    (∀ cfg p,
      confInBand 0.70 0.95 (excessLiquidityDetect cfg p) ∧
      confInBand 0.70 0.95 (unprotectedDetect cfg p) ∧
      confInBand 0.70 0.95 (cdMaturityDetect cfg p) ∧
      confInBand 0.70 0.95 (incomeGapDetect cfg p) ∧
      confInBand 0.70 0.95 (taxInefficiencyDetect cfg p) ∧
      confInBand 0.70 0.95 (qualifiedOpportunityDetect cfg p) ∧
      confInBand 0.70 0.95 (beneficiaryPlanningDetect cfg p) ∧
      confInBand 0.70 0.95 (diversificationGapDetect cfg p)) := by
  refine ⟨?_, ?_, ?_, confidenceFromScore_mem_range, acqConfidence_mem_band,
    ?_, ?_, ?_, ?_, ?_⟩
  · intro s hs
    simp [confidenceFromScore, hs]
  · intro s hs1 hs2
    have h : ¬(75 : ℚ) ≤ s := by linarith
    simp [confidenceFromScore, h, hs1]
  · intro s hs
    have h1 : ¬(75 : ℚ) ≤ s := by linarith
    have h2 : ¬(60 : ℚ) ≤ s := by linarith
    simp [confidenceFromScore, h1, h2]
  · intro cfg p profOpt cat
    unfold replacementDetect
    split
    · cases profOpt with
      | some pr => simp [confFromSharedMapping]
      | none => simp [confFromSharedMapping]
    · trivial
  · intro cfg pid inpOpt
    unfold incomeActivationDetect
    split
    · trivial
    · split
      · simp [confFromSharedMapping]
      · trivial
  · intro cfg p o c
    unfold driftDetect
    split
    · dsimp only
      split
      · simp [confFromSharedMapping]
      · trivial
    · trivial
  · intro cfg m
    unfold missingInfoDetect
    dsimp only
    split
    · simp [confFromSharedMapping]
    · trivial
  · intro cfg p
    refine ⟨?_, ?_, ?_, ?_, ?_, ?_, ?_, ?_⟩
    · unfold excessLiquidityDetect
      split
      · simpa [confInBand, mkAcqAlert] using acqConfidence_mem_band _
      · trivial
    · unfold unprotectedDetect
      split
      · simpa [confInBand, mkAcqAlert] using acqConfidence_mem_band _
      · trivial
    · unfold cdMaturityDetect
      split
      · simpa [confInBand, mkAcqAlert] using acqConfidence_mem_band _
      · trivial
    · unfold incomeGapDetect
      split
      · simpa [confInBand, mkAcqAlert] using acqConfidence_mem_band _
      · trivial
    · unfold taxInefficiencyDetect
      split
      · simpa [confInBand, mkAcqAlert] using acqConfidence_mem_band _
      · trivial
    · unfold qualifiedOpportunityDetect
      split
      · simpa [confInBand, mkAcqAlert] using acqConfidence_mem_band _
      · trivial
    · unfold beneficiaryPlanningDetect
      split
      · simpa [confInBand, mkAcqAlert] using acqConfidence_mem_band _
      · trivial
    · unfold diversificationGapDetect
      split
      · simpa [confInBand, mkAcqAlert] using acqConfidence_mem_band _
      · trivial

/-- Witness for C4 (amended): the three confidence branches instantiated at
scores 82, 65 and 50. -/
theorem c4_confidence_mapping_amended_witness :
    ((75 : ℚ) ≤ 82 ∧ confidenceFromScore 82 = min 0.95 (0.85 + (82 - 75) * 0.01)) ∧
    ((60 : ℚ) ≤ 65 ∧ (65 : ℚ) < 75 ∧
      confidenceFromScore 65 = 0.75 + (65 - 60) * 0.01) ∧
    ((50 : ℚ) < 60 ∧ confidenceFromScore 50 = 0.65) :=
  ⟨⟨by norm_num, c4_confidence_mapping_amended.1 82 (by norm_num)⟩,
   ⟨by norm_num, by norm_num,
    c4_confidence_mapping_amended.2.1 65 (by norm_num) (by norm_num)⟩,
   ⟨by norm_num, c4_confidence_mapping_amended.2.2.1 50 (by norm_num)⟩⟩

/-- C5: For every policy whose cap-rate gap (market benchmark cap minus
current cap rate) exceeds 2.0, the Replacement Detector emits an alert for
any profile availability; and when no client suitability profile is
available it still emits the alert but with score at most 52 of 95 and the
profile-required flag set. -/
theorem c5_replacement_trigger_and_degradation (cfg : EngineConfig)
    (p : PolicyRecord) (profOpt : Option ReplacementProfile) (cat : CatalogRef)
    (h : 2 < cfg.benchmarkCap - p.currentCapRate) :
    (replacementDetect cfg p profOpt cat).isSome = true ∧
    degradedProfileOk (replacementDetect cfg p none cat) := by
  have ht : replacementTrigger cfg p = true := by
    unfold replacementTrigger
    dsimp only
    rw [if_pos h]
  constructor
  · cases profOpt with
    | some pr => simp [replacementDetect, ht]
    | none => simp [replacementDetect, ht]
  · simp only [replacementDetect, ht, if_true, degradedProfileOk]
    exact ⟨min_le_left _ _, trivial⟩

/-- Witness for C5 at the documented demonstration inputs: cap rate 3.4
against the 5.5 benchmark gives gap 2.1. -/
theorem c5_replacement_trigger_and_degradation_witness :
    (2 : ℚ) < defaultConfig.benchmarkCap - demoPolicy.currentCapRate ∧
    ((replacementDetect defaultConfig demoPolicy (some demoProfile)
        demoCatalog).isSome = true ∧
     degradedProfileOk (replacementDetect defaultConfig demoPolicy none
        demoCatalog)) :=
  ⟨by norm_num [defaultConfig, demoPolicy],
   c5_replacement_trigger_and_degradation defaultConfig demoPolicy
     (some demoProfile) demoCatalog (by norm_num [defaultConfig, demoPolicy])⟩

/-- C6: For every policy with both an original and a current suitability
snapshot, if the primary objective shifted from Growth to Income and the
policy carries no income rider, the Suitability Drift Detector raises a
critical mismatch and assigns severity HIGH, regardless of the raw weighted
drift score. -/
theorem c6_growth_to_income_critical (cfg : EngineConfig) (p : PolicyRecord)
    (o c : SuitSnapshot) (h1 : o.objective = .growth)
    (h2 : c.objective = .income) (h3 : p.hasIncomeRider = false) :
    criticalHighOk (driftDetect cfg p (some o) (some c)) := by
  have hne : o.objective ≠ c.objective := by
    rw [h1, h2]
    simp
  have hcrit : driftCriticalMismatches p.hasIncomeRider o c =
      ["Objective shifted to Income but policy has no income rider"] := by
    unfold driftCriticalMismatches
    rw [if_pos ⟨hne, h2, h3⟩]
  simp [driftDetect, driftSeverity, criticalHighOk, hcrit]

/-- Witness for C6 at the demonstration snapshots: objective Growth at issue,
Income today, no income rider on the policy. -/
theorem c6_growth_to_income_critical_witness :
    demoOriginalSuit.objective = .growth ∧ demoCurrentSuit.objective = .income ∧
    demoPolicy.hasIncomeRider = false ∧
    criticalHighOk (driftDetect defaultConfig demoPolicy (some demoOriginalSuit)
      (some demoCurrentSuit)) :=
  ⟨rfl, rfl, rfl,
   c6_growth_to_income_critical defaultConfig demoPolicy demoOriginalSuit
     demoCurrentSuit rfl rfl rfl⟩

/-- C7: For every policy whose primary beneficiary is missing, the
Missing-Info Detector assigns severity HIGH (the critical regulatory field
rule), and in particular a policy with missing beneficiary and unset tax
withholding receives severity at least MEDIUM regardless of all other
fields. -/
theorem c7_missing_critical_fields (cfg : EngineConfig) (m : MissingInfoInput)
    (h1 : m.beneficiary = .missing) :
    (m.taxWithholding = .missing →
      sevAtLeast .MEDIUM (missingInfoDetect cfg m)) ∧
    sevIs .HIGH (missingInfoDetect cfg m) := by
  constructor
  · intro _
    simp [missingInfoDetect, missingInfoSeverity, sevAtLeast, sevRank, h1]
  · simp [missingInfoDetect, missingInfoSeverity, sevIs, h1]

/-- Witness for C7 at the demonstration missing-information input: primary
beneficiary not designated, tax withholding unset. -/
theorem c7_missing_critical_fields_witness :
    demoMissingInfo.beneficiary = .missing ∧
    ((demoMissingInfo.taxWithholding = .missing →
        sevAtLeast .MEDIUM (missingInfoDetect defaultConfig demoMissingInfo)) ∧
     sevIs .HIGH (missingInfoDetect defaultConfig demoMissingInfo)) :=
  ⟨rfl, c7_missing_critical_fields defaultConfig demoMissingInfo rfl⟩

/-- C8: Each of the eight acquisition sub-detectors emits an alert only if
its entity-level trigger condition holds; in particular an EXCESS_LIQUIDITY
alert implies cash holdings exceed both the percentage-of-portfolio
threshold and the absolute-dollar threshold, and whenever a trigger is false
the corresponding detector emits nothing, whatever the component scores
would have been. -/
theorem c8_acquisition_trigger_gates (cfg : EngineConfig) (p : Portfolio) :
    ((excessLiquidityDetect cfg p).isSome = true →
      excessLiquidityTrigger cfg p = true ∧
      cfg.cashPctThreshold * p.totalValue < p.cashValue ∧
      cfg.cashDollarThreshold < p.cashValue) ∧
    (excessLiquidityTrigger cfg p = false → excessLiquidityDetect cfg p = none) ∧
    ((unprotectedDetect cfg p).isSome = true → unprotectedTrigger p = true) ∧
    (unprotectedTrigger p = false → unprotectedDetect cfg p = none) ∧
    ((cdMaturityDetect cfg p).isSome = true → cdMaturityTrigger cfg p = true) ∧
    (cdMaturityTrigger cfg p = false → cdMaturityDetect cfg p = none) ∧
    ((incomeGapDetect cfg p).isSome = true → incomeGapTrigger p = true) ∧
    (incomeGapTrigger p = false → incomeGapDetect cfg p = none) ∧
    ((taxInefficiencyDetect cfg p).isSome = true → taxInefficiencyTrigger p = true) ∧
    (taxInefficiencyTrigger p = false → taxInefficiencyDetect cfg p = none) ∧
    ((qualifiedOpportunityDetect cfg p).isSome = true →
      qualifiedOpportunityTrigger p = true) ∧
    (qualifiedOpportunityTrigger p = false →
      qualifiedOpportunityDetect cfg p = none) ∧
    ((beneficiaryPlanningDetect cfg p).isSome = true →
      beneficiaryPlanningTrigger p = true) ∧
    (beneficiaryPlanningTrigger p = false →
      beneficiaryPlanningDetect cfg p = none) ∧
    ((diversificationGapDetect cfg p).isSome = true →
      diversificationGapTrigger p = true) ∧
    (diversificationGapTrigger p = false →
      diversificationGapDetect cfg p = none) := by
  refine ⟨?_, ?_, ?_, ?_, ?_, ?_, ?_, ?_, ?_, ?_, ?_, ?_, ?_, ?_, ?_, ?_⟩
  · intro h
    have ht : excessLiquidityTrigger cfg p = true := by
      rcases Bool.eq_false_or_eq_true (excessLiquidityTrigger cfg p) with hb | hb
      · exact hb
      · simp [excessLiquidityDetect, hb] at h
    have hd := ht
    simp only [excessLiquidityTrigger, Bool.and_eq_true, decide_eq_true_eq] at hd
    exact ⟨ht, hd.1.1.1, hd.1.1.2⟩
  · intro hf
    simp [excessLiquidityDetect, hf]
  · intro h
    rcases Bool.eq_false_or_eq_true (unprotectedTrigger p) with hb | hb
    · exact hb
    · simp [unprotectedDetect, hb] at h
  · intro hf
    simp [unprotectedDetect, hf]
  · intro h
    rcases Bool.eq_false_or_eq_true (cdMaturityTrigger cfg p) with hb | hb
    · exact hb
    · simp [cdMaturityDetect, hb] at h
  · intro hf
    simp [cdMaturityDetect, hf]
  · intro h
    rcases Bool.eq_false_or_eq_true (incomeGapTrigger p) with hb | hb
    · exact hb
    · simp [incomeGapDetect, hb] at h
  · intro hf
    simp [incomeGapDetect, hf]
  · intro h
    rcases Bool.eq_false_or_eq_true (taxInefficiencyTrigger p) with hb | hb
    · exact hb
    · simp [taxInefficiencyDetect, hb] at h
  · intro hf
    simp [taxInefficiencyDetect, hf]
  · intro h
    rcases Bool.eq_false_or_eq_true (qualifiedOpportunityTrigger p) with hb | hb
    · exact hb
    · simp [qualifiedOpportunityDetect, hb] at h
  · intro hf
    simp [qualifiedOpportunityDetect, hf]
  · intro h
    rcases Bool.eq_false_or_eq_true (beneficiaryPlanningTrigger p) with hb | hb
    · exact hb
    · simp [beneficiaryPlanningDetect, hb] at h
  · intro hf
    simp [beneficiaryPlanningDetect, hf]
  · intro h
    rcases Bool.eq_false_or_eq_true (diversificationGapTrigger p) with hb | hb
    · exact hb
    · simp [diversificationGapDetect, hb] at h
  · intro hf
    simp [diversificationGapDetect, hf]

/-- Witness for C8 on the gated demonstration portfolio: a very large cash
position whose component scores would be high, but a high stated liquidity
importance makes the excess-liquidity gate false, so no alert is emitted. -/
theorem c8_acquisition_trigger_gates_witness :
    excessLiquidityTrigger defaultConfig gatedPortfolio = false ∧
    excessLiquidityDetect defaultConfig gatedPortfolio = none :=
  ⟨by
    norm_num [excessLiquidityTrigger, defaultConfig, gatedPortfolio]
    decide,
   (c8_acquisition_trigger_gates defaultConfig gatedPortfolio).2.1
     (by
       norm_num [excessLiquidityTrigger, defaultConfig, gatedPortfolio]
       decide)⟩

/-- C9: The claim says the collection handed to the consumer is ordered with
every HIGH alert before every MEDIUM alert before every LOW alert. The
comparator of `processAlerts` reads `severityOrder[a.severity] || 3` over the
lookup HIGH to 0, MEDIUM to 1, LOW to 2; since 0 is falsy in JavaScript, a
HIGH row receives effective rank 3, not 0, so on a HIGH plus MEDIUM input the
sorted output places the MEDIUM row first and the HIGH row last,
contradicting both the claim and the comment above the sort. -/
theorem c9_severity_sort_puts_high_last :
    processAlerts c9DemoInput =
      [{ severity := "MEDIUM", alertType := "CD_MATURITY",
         clientName := "Milovich Pichirallo",
         clientAccountNumber := "101-123456-001",
         totalPortfolioValue := 1000000 },
       { severity := "HIGH", alertType := "EXCESS_LIQUIDITY",
         clientName := "Milovich Pichirallo",
         clientAccountNumber := "101-123456-001",
         totalPortfolioValue := 1000000 }] ∧
    tsEffectiveRank "HIGH" = 3 ∧
    tsEffectiveRank "MEDIUM" = 1 ∧
    tsEffectiveRank "LOW" = 2 := by
  decide

/-- C10: For every form state with no contingent beneficiary name, the
submission is rejected with the allocation error message unless the primary
allocation equals exactly 100; with a contingent beneficiary named, unless
the primary plus contingent allocations total exactly 100; and a completed
submission implies the allocation rule held, so no update-complete event is
ever emitted from an invalid allocation state. -/
theorem c10_allocation_validation_gates (aid pid : String) (f : UpdateFormState) :
    (f.contingentName = "" → f.primaryAllocation.getD 0 ≠ 100 →
      onSubmit aid pid f = .rejectedWith allocationErrorMsg) ∧
    (f.contingentName ≠ "" →
      f.primaryAllocation.getD 0 + f.contingentAllocation.getD 0 ≠ 100 →
      onSubmit aid pid f = .rejectedWith allocationErrorMsg) ∧
    (onSubmit aid pid f = .completed aid pid →
      validateAllocations f = true ∧
      (f.contingentName = "" → f.primaryAllocation.getD 0 = 100) ∧
      (f.contingentName ≠ "" →
        f.primaryAllocation.getD 0 + f.contingentAllocation.getD 0 = 100)) ∧
    (∀ a2 p2, SubmitOutcome.rejectedWith allocationErrorMsg ≠
      SubmitOutcome.completed a2 p2) := by
  refine ⟨?_, ?_, ?_, ?_⟩
  · intro h1 h2
    have hv : validateAllocations f = false := by
      simp [validateAllocations, h1]
      exact h2
    simp [onSubmit, hv]
  · intro h1 h2
    have hv : validateAllocations f = false := by
      simp [validateAllocations, h1]
      exact h2
    simp [onSubmit, hv]
  · intro h
    have hinv : f.formInvalid = false := by
      rcases Bool.eq_false_or_eq_true f.formInvalid with hb | hb
      · simp [onSubmit, hb] at h
      · exact hb
    have hv : validateAllocations f = true := by
      rcases Bool.eq_false_or_eq_true (validateAllocations f) with hb | hb
      · exact hb
      · simp [onSubmit, hinv, hb] at h
    refine ⟨hv, ?_, ?_⟩
    · intro h1
      simp [validateAllocations, h1] at hv
      exact hv
    · intro h1
      simp [validateAllocations, h1] at hv
      exact hv
  · intro a2 p2 hx
    exact SubmitOutcome.noConfusion hx

/-- Witness for C10: a primary-only form at allocation 80 and a contingent
form totalling 90 are both rejected with the allocation error message. -/
theorem c10_allocation_validation_gates_witness :
    (c10NoContingentBad.contingentName = "" ∧
     c10NoContingentBad.primaryAllocation.getD 0 ≠ 100 ∧
     onSubmit "ALT-1" "POL-90002" c10NoContingentBad =
       .rejectedWith allocationErrorMsg) ∧
    (c10WithContingentBad.contingentName ≠ "" ∧
     c10WithContingentBad.primaryAllocation.getD 0 +
       c10WithContingentBad.contingentAllocation.getD 0 ≠ 100 ∧
     onSubmit "ALT-1" "POL-90002" c10WithContingentBad =
       .rejectedWith allocationErrorMsg) :=
  ⟨⟨rfl, by norm_num [c10NoContingentBad],
    (c10_allocation_validation_gates "ALT-1" "POL-90002" c10NoContingentBad).1
      rfl (by norm_num [c10NoContingentBad])⟩,
   ⟨by decide, by norm_num [c10WithContingentBad],
    (c10_allocation_validation_gates "ALT-1" "POL-90002" c10WithContingentBad).2.1
      (by decide) (by norm_num [c10WithContingentBad])⟩⟩

/-- Support: the documented demonstration scenario evaluates as the
documentation says: score 6578 over 85, about 77.4, within 1 of 77, severity
HIGH. -/
theorem replacement_demo_eval :
    (replacementDetect defaultConfig demoPolicy (some demoProfile)
      demoCatalog).map Alert.score = some (6578 / 85) ∧
    (replacementDetect defaultConfig demoPolicy (some demoProfile)
      demoCatalog).map Alert.severity = some .HIGH ∧
    |(6578 / 85 : ℚ) - 77| ≤ 1 := by
  refine ⟨?_, ?_, by rw [abs_le]; constructor <;> norm_num⟩ <;>
    norm_num [replacementDetect, replacementTrigger, performanceGapScore,
      suitabilityMatchScore, riskMatchScore, objectiveMatchScore,
      horizonMatchScore, costSavingsScore, featureUpgradeScore,
      replacementSeverity, scoreToSeverity, replacementExpectedGain,
      replacementSurrenderPenalty, defaultConfig, demoPolicy, demoProfile,
      demoCatalog, min_def]

/-- Support: membership in a stable insertion is membership in the inserted
element or the original list. -/
theorem stableInsert_mem {α : Type} (r : α → Nat) (x z : α) (l : List α) :
    z ∈ stableInsert r x l ↔ z = x ∨ z ∈ l := by
  induction l with
  | nil => simp [stableInsert]
  | cons y ys ih =>
    unfold stableInsert
    split
    · simp only [List.mem_cons, ih]
      tauto
    · simp only [List.mem_cons]

/-- Support: stable insertion preserves ordering by the rank key. -/
theorem stableInsert_pairwise {α : Type} (r : α → Nat) (x : α) (l : List α)
    (h : l.Pairwise (fun a b => r a ≤ r b)) :
    (stableInsert r x l).Pairwise (fun a b => r a ≤ r b) := by
  induction l with
  | nil => simp [stableInsert]
  | cons y ys ih =>
    rw [List.pairwise_cons] at h
    obtain ⟨hy, hys⟩ := h
    unfold stableInsert
    split
    · rename_i hle
      rw [List.pairwise_cons]
      refine ⟨?_, ih hys⟩
      intro z hz
      rw [stableInsert_mem] at hz
      rcases hz with rfl | hz
      · exact hle
      · exact hy z hz
    · rename_i hnle
      have hxy : r x ≤ r y := by omega
      rw [List.pairwise_cons]
      refine ⟨?_, List.pairwise_cons.mpr ⟨hy, hys⟩⟩
      intro z hz
      rcases List.mem_cons.mp hz with rfl | hz
      · exact hxy
      · exact le_trans hxy (hy z hz)

/-- Support: the stable sort by a rank key yields a list pairwise ordered by
that key. -/
theorem stableSortBy_pairwise {α : Type} (r : α → Nat) (l : List α) :
    (stableSortBy r l).Pairwise (fun a b => r a ≤ r b) := by
  suffices h : ∀ acc : List α, acc.Pairwise (fun a b => r a ≤ r b) →
      (l.foldl (fun acc x => stableInsert r x acc) acc).Pairwise
        (fun a b => r a ≤ r b) from h [] (by simp)
  induction l with
  | nil =>
    intro acc hacc
    simpa using hacc
  | cons x xs ih =>
    intro acc hacc
    simp only [List.foldl_cons]
    exact ih _ (stableInsert_pairwise r x acc hacc)

/-- Support: both collections of the modelled batch output are ordered by the
severity sort key, HIGH first, MEDIUM second, LOW last, after the single
collection-point sort of the orchestrator. -/
theorem runBatch_output_sorted (cfg : EngineConfig) (snap : Snapshot) :
    ((runBatch cfg snap).policyAlerts).Pairwise
      (fun a b => sevSortKey a.severity ≤ sevSortKey b.severity) ∧
    ((runBatch cfg snap).acquisitionAlerts).Pairwise
      (fun a b => sevSortKey a.severity ≤ sevSortKey b.severity) :=
  ⟨stableSortBy_pairwise _ _, stableSortBy_pairwise _ _⟩
